import Mathlib

/-!
Verification of the PesXChange backend (Go) against its specification.

Each section shallowly embeds one slice of the source:
* handlers/image_handler.go     — image upload validation and aggregation
* services (auth_service)       — SRN validation and PESU authentication
* services/user_service.go      — user upsert on login
* services (item_service)       — item creation, listing pagination, update/delete
* middleware (ParsePagination)  — pagination parameter clamping
* services (message_service)    — messages, active chats, mark-as-read
* handlers/message_handler.go   — send-message handler

External collaborators (the Supabase data/storage service, the PESU identity
provider) are modelled as explicit parameters or as in-memory stores; machine
strings are Lean `String`s, times are `Nat` ticks, and Go `float64` fields that
are only compared or copied are modelled as `Rat`/`Int`.
-/

namespace PesXChange

/-! ## Image upload (handlers/image_handler.go) -/

/-- `maxFileSize = 5 * 1024 * 1024` (5 MiB per image). -/
def maxFileSize : Int := 5 * 1024 * 1024

/-- `maxImagesPerUpload = 5`. -/
def maxImagesPerUpload : Nat := 5

/-- One file of the multipart form: the client-supplied filename, the
client-declared content type header, the declared size (`file.Size` of the
multipart header, an `int64`), and the actual bytes. -/
structure UploadedFile where
  filename : String
  declaredContentType : String
  size : Int
  content : List UInt8
deriving DecidableEq, Repr

/-- `getExtensionFromContentType`: maps MIME types to file extensions.
Only image/jpeg, image/png and image/webp are accepted (GIF removed). -/
def getExtensionFromContentType (contentType : String) : Except String String :=
  if contentType = "image/jpeg" then .ok ".jpg"
  else if contentType = "image/png" then .ok ".png"
  else if contentType = "image/webp" then .ok ".webp"
  else .error ("unsupported image type: " ++ contentType)

/-- `validateImageFile`: reads the first 512 bytes, sniffs the content type
with `http.DetectContentType` (passed in as `detect`, since it is Go standard
library code, not part of this repository), and validates it against the
allowed types.  Returns (contentType, extension) on success. -/
def validateImageFile (detect : List UInt8 → String) (file : List UInt8) :
    Except String (String × String) :=
  let buffer := file.take 512
  let contentType := detect buffer
  match getExtensionFromContentType contentType with
  | .error e => .error e
  | .ok ext => .ok (contentType, ext)

/-- Outcome of the per-file loop body in `UploadImage`: either a public URL was
collected, or the file was rejected with a reason string. -/
inductive FileOutcome where
  | uploaded (url : String)
  | rejected (reason : String)
deriving DecidableEq, Repr

/-- The body of the per-file loop of `ImageHandler.UploadImage` (lines 68-125):
size check on the declared size, magic-byte validation, bounded read
(`io.LimitReader` with `maxFileSize+1`), double size check on the bytes
actually read, unique filename generation, and upload.  `upload` stands for
`uploadToSupabase` followed by `GetPublicUrl` (remote storage collaborator):
it receives the generated filename, the read bytes, and the sniffed content
type, and returns the public URL or an error.  `file.Open` failures and read
errors of the in-memory model cannot occur and are not modelled. -/
def processFile (detect : List UInt8 → String)
    (upload : String → List UInt8 → String → Except String String)
    (uuid : String) (ts : Int) (file : UploadedFile) : FileOutcome :=
  if file.size > maxFileSize then
    .rejected (file.filename ++ " (exceeds 5MB limit)")
  else
    match validateImageFile detect file.content with
    | .error e => .rejected (file.filename ++ " (invalid image type: " ++ e ++ ")")
    | .ok (contentType, ext) =>
      let buf := file.content.take (maxFileSize + 1).toNat
      let written : Int := (buf.length : Int)
      if written > maxFileSize then
        .rejected (file.filename ++ " (file too large)")
      else
        let filename := uuid ++ "_" ++ toString ts ++ ext
        match upload filename buf contentType with
        | .error e => .rejected (file.filename ++ " (upload failed: " ++ e ++ ")")
        | .ok url => .uploaded url

/-- The outcomes of the upload loop, in request order.  Each iteration draws a
fresh identifier (`uuid.New()`), modelled by `uuidGen` applied to the index. -/
def uploadOutcomes (detect : List UInt8 → String)
    (upload : String → List UInt8 → String → Except String String)
    (uuidGen : Nat → String) (ts : Int) : List UploadedFile → List FileOutcome
  | [] => []
  | f :: fs =>
    processFile detect upload (uuidGen 0) ts f ::
      uploadOutcomes detect upload (fun i => uuidGen (i + 1)) ts fs

/-- `uploadedURLs` accumulated by the loop. -/
def collectURLs (outs : List FileOutcome) : List String :=
  outs.filterMap fun o =>
    match o with
    | .uploaded u => some u
    | .rejected _ => none

/-- `rejectedFiles` accumulated by the loop. -/
def collectRejected (outs : List FileOutcome) : List String :=
  outs.filterMap fun o =>
    match o with
    | .rejected r => some r
    | .uploaded _ => none

/-- The aggregate HTTP response of `UploadImage`: `badRequest` is status 400,
`success` is status 200 with the URL list and an optional warning message. -/
inductive UploadResponse where
  | badRequest (error : String)
  | success (urls : List String) (message : Option String)
deriving DecidableEq, Repr

/-- `ImageHandler.UploadImage`: count checks, the per-file loop, and the
aggregation of results (lines 37-152 of handlers/image_handler.go). -/
def UploadImage (detect : List UInt8 → String)
    (upload : String → List UInt8 → String → Except String String)
    (uuidGen : Nat → String) (ts : Int) (files : List UploadedFile) : UploadResponse :=
  if files.length = 0 then .badRequest "No images provided"
  else if files.length > maxImagesPerUpload then
    .badRequest ("Maximum " ++ toString maxImagesPerUpload ++ " images allowed per upload")
  else
    let outs := uploadOutcomes detect upload uuidGen ts files
    let uploadedURLs := collectURLs outs
    let rejectedFiles := collectRejected outs
    if uploadedURLs.length = 0 then
      .badRequest
        (if rejectedFiles.length > 0 then
          "All images rejected: " ++ String.intercalate ", " rejectedFiles
        else "Failed to upload any images")
    else
      .success uploadedURLs
        (if rejectedFiles.length > 0 then
          some ("Uploaded " ++ toString uploadedURLs.length ++ " images, rejected " ++
            toString rejectedFiles.length ++ ": " ++ String.intercalate ", " rejectedFiles)
        else none)

/-- C1: any byte sequence whose first 512 bytes sniff to a content type other
than image/jpeg, image/png or image/webp is rejected by the upload path — for
every sniffing function, every filename and every declared content-type header
(neither is consulted) — and the three accepted types map to the extensions
.jpg, .png and .webp respectively. -/
theorem sniffedTypeGate (detect : List UInt8 → String)
    (upload : String → List UInt8 → String → Except String String)
    (uuid : String) (ts : Int) (file : UploadedFile)
    (h1 : detect (file.content.take 512) ≠ "image/jpeg")
    (h2 : detect (file.content.take 512) ≠ "image/png")
    (h3 : detect (file.content.take 512) ≠ "image/webp") :
    (∀ url, processFile detect upload uuid ts file ≠ .uploaded url) ∧
    (∃ reason, processFile detect upload uuid ts file = .rejected reason) ∧
    getExtensionFromContentType "image/jpeg" = .ok ".jpg" ∧
    getExtensionFromContentType "image/png" = .ok ".png" ∧
    getExtensionFromContentType "image/webp" = .ok ".webp" := by
  have hval : validateImageFile detect file.content =
      .error ("unsupported image type: " ++ detect (file.content.take 512)) := by
    unfold validateImageFile getExtensionFromContentType
    simp only [if_neg h1, if_neg h2, if_neg h3]
  constructor
  · intro url
    unfold processFile
    by_cases hsz : file.size > maxFileSize
    · simp [hsz]
    · simp [hsz, hval]
  constructor
  · by_cases hsz : file.size > maxFileSize
    · exact ⟨file.filename ++ " (exceeds 5MB limit)", by unfold processFile; simp [hsz]⟩
    · exact ⟨file.filename ++ " (invalid image type: " ++
        ("unsupported image type: " ++ detect (file.content.take 512)) ++ ")",
        by unfold processFile; simp [hsz, hval]⟩
  exact ⟨rfl, rfl, rfl⟩

/-- Witness for C1 at a concrete input: a PDF-sniffing payload declared as
image/jpeg with a .jpg filename is rejected. -/
theorem sniffedTypeGate_witness :
    (∀ url,
      processFile (fun _ => "application/pdf") (fun _ _ _ => .ok "http://x/y") "u0" 0
        ⟨"evil.jpg", "image/jpeg", 10, [37, 80, 68, 70]⟩ ≠ .uploaded url) ∧
    (∃ reason,
      processFile (fun _ => "application/pdf") (fun _ _ _ => .ok "http://x/y") "u0" 0
        ⟨"evil.jpg", "image/jpeg", 10, [37, 80, 68, 70]⟩ = .rejected reason) ∧
    getExtensionFromContentType "image/jpeg" = .ok ".jpg" ∧
    getExtensionFromContentType "image/png" = .ok ".png" ∧
    getExtensionFromContentType "image/webp" = .ok ".webp" :=
  sniffedTypeGate (fun _ => "application/pdf") (fun _ _ _ => .ok "http://x/y") "u0" 0
    ⟨"evil.jpg", "image/jpeg", 10, [37, 80, 68, 70]⟩
    (by decide) (by decide) (by decide)

lemma collectURLs_cons_rejected (r : String) (t : List FileOutcome) :
    collectURLs (FileOutcome.rejected r :: t) = collectURLs t := rfl

lemma collectURLs_cons_uploaded (u : String) (t : List FileOutcome) :
    collectURLs (FileOutcome.uploaded u :: t) = u :: collectURLs t := rfl

lemma collectRejected_cons_rejected (r : String) (t : List FileOutcome) :
    collectRejected (FileOutcome.rejected r :: t) = r :: collectRejected t := rfl

lemma collectRejected_cons_uploaded (u : String) (t : List FileOutcome) :
    collectRejected (FileOutcome.uploaded u :: t) = collectRejected t := rfl

lemma mem_collectRejected {outs : List FileOutcome} {r : String}
    (h : FileOutcome.rejected r ∈ outs) : r ∈ collectRejected outs :=
  List.mem_filterMap.mpr ⟨FileOutcome.rejected r, h, rfl⟩

lemma mem_collectURLs {outs : List FileOutcome} {u : String}
    (h : FileOutcome.uploaded u ∈ outs) : u ∈ collectURLs outs :=
  List.mem_filterMap.mpr ⟨FileOutcome.uploaded u, h, rfl⟩

lemma uploadOutcomes_get? (detect : List UInt8 → String)
    (upload : String → List UInt8 → String → Except String String) (ts : Int)
    (files : List UploadedFile) :
    ∀ (uuidGen : Nat → String) (i : Nat) (h : i < files.length),
      (uploadOutcomes detect upload uuidGen ts files).get? i =
        some (processFile detect upload (uuidGen i) ts (files.get ⟨i, h⟩)) := by
  induction files with
  | nil => intro _ i h; exact absurd h (Nat.not_lt_zero i)
  | cons f fs ih =>
    intro uuidGen i h
    cases i with
    | zero => rfl
    | succ j => exact ih (fun k => uuidGen (k + 1)) j (Nat.lt_of_succ_lt_succ h)

lemma uploadOutcomes_length (detect : List UInt8 → String)
    (upload : String → List UInt8 → String → Except String String) (ts : Int) :
    ∀ (files : List UploadedFile) (uuidGen : Nat → String),
      (uploadOutcomes detect upload uuidGen ts files).length = files.length := by
  intro files
  induction files with
  | nil => intro _; rfl
  | cons f fs ih => intro uuidGen; simp [uploadOutcomes, ih]

lemma collectRejected_length_of_noURLs {outs : List FileOutcome}
    (h : collectURLs outs = []) : (collectRejected outs).length = outs.length := by
  induction outs with
  | nil => rfl
  | cons o t ih =>
    cases o with
    | uploaded u => simp [collectURLs_cons_uploaded] at h
    | rejected r =>
      rw [collectURLs_cons_rejected] at h
      simp [collectRejected_cons_rejected, ih h]

/-- C6: within one upload request of at most the maximum file count, a file
whose declared size exceeds the 5 MiB limit is rejected with the size-limit
reason while every file that individually succeeds still has its URL
collected; if no file succeeds the whole request fails with the list of
per-file rejection reasons, and if at least one succeeds the response carries
the success URLs plus a warning message enumerating the rejected files. -/
theorem uploadImage_aggregation (detect : List UInt8 → String)
    (upload : String → List UInt8 → String → Except String String)
    (uuidGen : Nat → String) (ts : Int) (files : List UploadedFile)
    (hne : files ≠ []) (hcount : files.length ≤ maxImagesPerUpload) :
    (∀ i (h : i < files.length), (files.get ⟨i, h⟩).size > maxFileSize →
      (uploadOutcomes detect upload uuidGen ts files).get? i =
          some (.rejected ((files.get ⟨i, h⟩).filename ++ " (exceeds 5MB limit)")) ∧
        ((files.get ⟨i, h⟩).filename ++ " (exceeds 5MB limit)") ∈
          collectRejected (uploadOutcomes detect upload uuidGen ts files)) ∧
    (∀ i (h : i < files.length) (url : String),
      processFile detect upload (uuidGen i) ts (files.get ⟨i, h⟩) = .uploaded url →
        url ∈ collectURLs (uploadOutcomes detect upload uuidGen ts files)) ∧
    (collectURLs (uploadOutcomes detect upload uuidGen ts files) = [] →
      UploadImage detect upload uuidGen ts files =
        .badRequest ("All images rejected: " ++ String.intercalate ", "
          (collectRejected (uploadOutcomes detect upload uuidGen ts files)))) ∧
    (collectURLs (uploadOutcomes detect upload uuidGen ts files) ≠ [] →
      UploadImage detect upload uuidGen ts files =
        .success (collectURLs (uploadOutcomes detect upload uuidGen ts files))
          (if (collectRejected (uploadOutcomes detect upload uuidGen ts files)).length > 0 then
            some ("Uploaded " ++
              toString (collectURLs (uploadOutcomes detect upload uuidGen ts files)).length ++
              " images, rejected " ++
              toString (collectRejected (uploadOutcomes detect upload uuidGen ts files)).length ++
              ": " ++ String.intercalate ", "
                (collectRejected (uploadOutcomes detect upload uuidGen ts files)))
          else none)) := by
  have hlen0 : files.length ≠ 0 := fun h0 => hne (List.length_eq_zero.mp h0)
  have hlenpos : 0 < files.length := Nat.pos_of_ne_zero hlen0
  refine ⟨?_, ?_, ?_, ?_⟩
  · intro i h hsz
    have hget := uploadOutcomes_get? detect upload ts files uuidGen i h
    have hproc : processFile detect upload (uuidGen i) ts (files.get ⟨i, h⟩) =
        .rejected ((files.get ⟨i, h⟩).filename ++ " (exceeds 5MB limit)") := by
      unfold processFile; rw [if_pos hsz]
    rw [hproc] at hget
    exact ⟨hget, mem_collectRejected (List.get?_mem hget)⟩
  · intro i h url hup
    have hget := uploadOutcomes_get? detect upload ts files uuidGen i h
    rw [hup] at hget
    exact mem_collectURLs (List.get?_mem hget)
  · intro hurls
    have hrej : (collectRejected (uploadOutcomes detect upload uuidGen ts files)).length =
        (uploadOutcomes detect upload uuidGen ts files).length :=
      collectRejected_length_of_noURLs hurls
    have houtlen : (uploadOutcomes detect upload uuidGen ts files).length = files.length :=
      uploadOutcomes_length detect upload ts files uuidGen
    have hrejpos : 0 < (collectRejected (uploadOutcomes detect upload uuidGen ts files)).length := by
      rw [hrej, houtlen]; exact hlenpos
    unfold UploadImage
    rw [if_neg hlen0, if_neg (Nat.not_lt.mpr hcount)]
    simp only [hurls, List.length_nil, if_pos rfl, if_pos hrejpos]
    simp
  · intro hurls
    have hpos : (collectURLs (uploadOutcomes detect upload uuidGen ts files)).length ≠ 0 :=
      fun h0 => hurls (List.length_eq_zero.mp h0)
    unfold UploadImage
    rw [if_neg hlen0, if_neg (Nat.not_lt.mpr hcount)]
    simp only [if_neg hpos]

/-- Witness for C6 at a concrete input: a request with a 6 MiB file and a
valid PNG-sniffing file rejects the former with the size reason, uploads the
latter, and returns success URLs plus the warning message. -/
theorem uploadImage_aggregation_witness :
    ((⟨"big.jpg", "image/jpeg", 6291456, []⟩ : UploadedFile) ::
        [⟨"ok.png", "image/png", 10, [137, 80, 78, 71]⟩] ≠ []) ∧
    ((⟨"big.jpg", "image/jpeg", 6291456, []⟩ : UploadedFile) ::
        [⟨"ok.png", "image/png", 10, [137, 80, 78, 71]⟩]).length ≤ maxImagesPerUpload ∧
    UploadImage (fun _ => "image/png") (fun f _ _ => .ok ("http://s/" ++ f)) (fun _ => "u")
        7 ((⟨"big.jpg", "image/jpeg", 6291456, []⟩ : UploadedFile) ::
          [⟨"ok.png", "image/png", 10, [137, 80, 78, 71]⟩]) =
      .success ["http://s/u_7.png"]
        (some "Uploaded 1 images, rejected 1: big.jpg (exceeds 5MB limit)") := by
  refine ⟨by decide, by decide, ?_⟩
  have h := (uploadImage_aggregation (fun _ => "image/png")
    (fun f _ _ => .ok ("http://s/" ++ f)) (fun _ => "u") 7
    ((⟨"big.jpg", "image/jpeg", 6291456, []⟩ : UploadedFile) ::
      [⟨"ok.png", "image/png", 10, [137, 80, 78, 71]⟩])
    (by decide) (by decide)).2.2.2
  rw [h (by decide)]
  decide

/-! ## Users and authentication (services/user_service.go, AuthService) -/

/-- A PESU student profile as returned by the identity provider. -/
structure PESUProfile where
  name : String
  prn : String
  srn : String
  program : String
  branch : String
  semester : String
  sectionName : String
  email : String
  phone : String
  campusCode : Int
  campus : String
deriving DecidableEq, Repr

/-- The identity provider's decoded response body. -/
structure PESUAuthResponse where
  status : Bool
  profile : Option PESUProfile
  message : String
deriving DecidableEq, Repr

/-- The authentication request body. -/
structure PESUAuthRequest where
  username : String
  password : String
deriving DecidableEq, Repr

/-- A row of the `user_profiles` table (models.User).  Go `float64` rating is
modelled as `Rat`; timestamps as `Nat` ticks.  The Go field `Section` is
renamed `sectionName` (Lean keyword). -/
structure User where
  id : String
  srn : String
  prn : String
  name : String
  email : String
  phone : String
  bio : String
  avatarURL : String
  program : String
  branch : String
  semester : String
  sectionName : String
  campusCode : Option Int
  campus : String
  rating : Rat
  verified : Bool
  location : String
  createdAt : Nat
  updatedAt : Nat
  lastLogin : Option Nat
  nickname : String
deriving DecidableEq, Repr

/-- `UserService.UpsertUser`: look up by SRN; if found, refresh the
provider-sourced fields while keeping bio, avatar, rating, location, nickname,
id and creation time, and update the row; if not found, insert a new user with
defaults.  The store models the `user_profiles` table; `newID` models
`uuid.New()`. -/
def UpsertUser (now : Nat) (newID : String) (store : List User)
    (profile : PESUProfile) : User × List User :=
  let existingUsers := store.filter (fun u => u.srn = profile.srn)
  match existingUsers with
  | existingUser :: _ =>
    let updatedUser : User :=
      { id := existingUser.id            -- Keep existing ID
        srn := profile.srn
        prn := profile.prn
        name := profile.name
        email := profile.email
        phone := profile.phone
        bio := existingUser.bio          -- Keep existing bio
        avatarURL := existingUser.avatarURL  -- Keep existing avatar
        program := profile.program
        branch := profile.branch
        semester := profile.semester
        sectionName := profile.sectionName
        campusCode := some profile.campusCode
        campus := profile.campus
        rating := existingUser.rating    -- Keep existing rating
        verified := true                 -- PESU authenticated users are verified
        location := existingUser.location  -- Keep existing location
        createdAt := existingUser.createdAt  -- Keep original creation time
        updatedAt := now
        lastLogin := some now
        nickname := existingUser.nickname }  -- Keep existing nickname
    (updatedUser, store.map fun u => if u.id = existingUser.id then updatedUser else u)
  | [] =>
    let newUser : User :=
      { id := newID
        srn := profile.srn
        prn := profile.prn
        name := profile.name
        email := profile.email
        phone := profile.phone
        bio := ""                        -- Empty bio initially
        avatarURL := ""                  -- Empty avatar URL initially
        program := profile.program
        branch := profile.branch
        semester := profile.semester
        sectionName := profile.sectionName
        campusCode := some profile.campusCode
        campus := profile.campus
        rating := 0                      -- Default rating
        verified := true
        location := "PES University, Bangalore"  -- Default location
        createdAt := now
        updatedAt := now
        lastLogin := some now
        nickname := "" }                 -- Empty nickname initially
    (newUser, store ++ [newUser])

/-- The provider-sourced fields and timestamps an upsert must refresh. -/
def refreshesProviderFields (r : User) (profile : PESUProfile) (now : Nat) : Prop :=
  r.name = profile.name ∧ r.email = profile.email ∧ r.phone = profile.phone ∧
  r.program = profile.program ∧ r.branch = profile.branch ∧
  r.semester = profile.semester ∧ r.sectionName = profile.sectionName ∧
  r.campus = profile.campus ∧ r.updatedAt = now ∧ r.lastLogin = some now

/-- The locally-editable fields an upsert must preserve from the stored user. -/
def preservesLocalFields (r existing : User) : Prop :=
  r.bio = existing.bio ∧ r.avatarURL = existing.avatarURL ∧
  r.rating = existing.rating ∧ r.location = existing.location ∧
  r.nickname = existing.nickname ∧ r.id = existing.id ∧
  r.createdAt = existing.createdAt

/-- The defaults a freshly created user must carry. -/
def freshUserDefaults (r : User) : Prop :=
  r.bio = "" ∧ r.avatarURL = "" ∧ r.rating = 0 ∧ r.verified = true ∧
  r.location = "PES University, Bangalore"

/-- C5: upserting an authenticated profile refreshes the provider-sourced
fields and timestamps of an existing user while preserving bio, avatar,
rating, location, nickname, id and creation time; with no stored user for the
identity, it creates one with empty bio and avatar, rating 0, verified=true,
and the default location. -/
theorem upsertUser_refresh_and_defaults (now : Nat) (newID : String)
    (store : List User) (profile : PESUProfile) :
    (∀ u rest, store.filter (fun x => x.srn = profile.srn) = u :: rest →
      refreshesProviderFields (UpsertUser now newID store profile).1 profile now ∧
        preservesLocalFields (UpsertUser now newID store profile).1 u) ∧
    (store.filter (fun x => x.srn = profile.srn) = [] →
      freshUserDefaults (UpsertUser now newID store profile).1 ∧
        (UpsertUser now newID store profile).1.id = newID ∧
        (UpsertUser now newID store profile).1.createdAt = now) := by
  constructor
  · intro u rest h
    unfold UpsertUser
    rw [h]
    exact ⟨⟨rfl, rfl, rfl, rfl, rfl, rfl, rfl, rfl, rfl, rfl⟩,
      ⟨rfl, rfl, rfl, rfl, rfl, rfl, rfl⟩⟩
  · intro h
    unfold UpsertUser
    rw [h]
    exact ⟨⟨rfl, rfl, rfl, rfl, rfl⟩, rfl, rfl⟩

/-- Witness for C5 at a concrete input: one stored user carrying local edits,
then an upsert of a fresh profile; also the insert branch on an empty store. -/
theorem upsertUser_refresh_and_defaults_witness :
    (refreshesProviderFields
        (UpsertUser 9 "nid"
          [{ id := "u1", srn := "PES1UG23CS001", prn := "p", name := "Old",
             email := "o@e", phone := "1", bio := "my bio", avatarURL := "av",
             program := "BTech", branch := "CSE", semester := "3",
             sectionName := "A", campusCode := some 1, campus := "RR",
             rating := 4, verified := true, location := "Hostel",
             createdAt := 2, updatedAt := 3, lastLogin := some 3,
             nickname := "nick" }]
          { name := "New", prn := "p", srn := "PES1UG23CS001",
            program := "BTech", branch := "CSE", semester := "4",
            sectionName := "B", email := "n@e", phone := "2",
            campusCode := 1, campus := "RR" }).1
        { name := "New", prn := "p", srn := "PES1UG23CS001",
          program := "BTech", branch := "CSE", semester := "4",
          sectionName := "B", email := "n@e", phone := "2",
          campusCode := 1, campus := "RR" } 9 ∧
      preservesLocalFields
        (UpsertUser 9 "nid"
          [{ id := "u1", srn := "PES1UG23CS001", prn := "p", name := "Old",
             email := "o@e", phone := "1", bio := "my bio", avatarURL := "av",
             program := "BTech", branch := "CSE", semester := "3",
             sectionName := "A", campusCode := some 1, campus := "RR",
             rating := 4, verified := true, location := "Hostel",
             createdAt := 2, updatedAt := 3, lastLogin := some 3,
             nickname := "nick" }]
          { name := "New", prn := "p", srn := "PES1UG23CS001",
            program := "BTech", branch := "CSE", semester := "4",
            sectionName := "B", email := "n@e", phone := "2",
            campusCode := 1, campus := "RR" }).1
        { id := "u1", srn := "PES1UG23CS001", prn := "p", name := "Old",
          email := "o@e", phone := "1", bio := "my bio", avatarURL := "av",
          program := "BTech", branch := "CSE", semester := "3",
          sectionName := "A", campusCode := some 1, campus := "RR",
          rating := 4, verified := true, location := "Hostel",
          createdAt := 2, updatedAt := 3, lastLogin := some 3,
          nickname := "nick" }) ∧
    freshUserDefaults
      (UpsertUser 9 "nid" []
        { name := "New", prn := "p", srn := "PES1UG23CS001",
          program := "BTech", branch := "CSE", semester := "4",
          sectionName := "B", email := "n@e", phone := "2",
          campusCode := 1, campus := "RR" }).1 := by
  constructor
  · exact (upsertUser_refresh_and_defaults 9 "nid"
      [{ id := "u1", srn := "PES1UG23CS001", prn := "p", name := "Old",
         email := "o@e", phone := "1", bio := "my bio", avatarURL := "av",
         program := "BTech", branch := "CSE", semester := "3",
         sectionName := "A", campusCode := some 1, campus := "RR",
         rating := 4, verified := true, location := "Hostel",
         createdAt := 2, updatedAt := 3, lastLogin := some 3,
         nickname := "nick" }]
      { name := "New", prn := "p", srn := "PES1UG23CS001",
        program := "BTech", branch := "CSE", semester := "4",
        sectionName := "B", email := "n@e", phone := "2",
        campusCode := 1, campus := "RR" }).1 _ [] (by decide)
  · exact ((upsertUser_refresh_and_defaults 9 "nid" []
      { name := "New", prn := "p", srn := "PES1UG23CS001",
        program := "BTech", branch := "CSE", semester := "4",
        sectionName := "B", email := "n@e", phone := "2",
        campusCode := 1, campus := "RR" }).2 rfl).1

/-- `AuthService.ValidateSRN`'s regular expression
`PES` `\d` `[A-Z]{2}` `\d{2}` `[A-Z]{2}` `\d{3}`, anchored on both sides,
applied to the upper-cased input.  Go's `\d` and `[A-Z]` are the ASCII
classes, matching `Char.isDigit` and `Char.isUpper`. -/
def matchesSRNPattern (s : String) : Bool :=
  match s.toList with
  | ['P', 'E', 'S', d1, a1, a2, d2, d3, a3, a4, d4, d5, d6] =>
    d1.isDigit && a1.isUpper && a2.isUpper && d2.isDigit && d3.isDigit &&
      a3.isUpper && a4.isUpper && d4.isDigit && d5.isDigit && d6.isDigit
  | _ => false

/-- `AuthService.ValidateSRN`: match the pattern against the upper-cased SRN.
`strings.ToUpper` is modelled as a character-wise `Char.toUpper` (the ASCII
mapping, which is what matters for the ASCII-only pattern). -/
def ValidateSRN (srn : String) : Bool :=
  matchesSRNPattern (String.mk (srn.data.map Char.toUpper))

/-- The identity provider call's observable outcome: transport failure, or an
HTTP status code with an optionally decodable body. -/
inductive NetOutcome where
  | connectError
  | response (statusCode : Nat) (decoded : Option PESUAuthResponse)

/-- Error cases of `AuthService.AuthenticateWithPESU`. -/
inductive AuthError where
  | invalidSRNFormat
  | missingCredentials
  | inputTooLong
  | connectFailure
  | serviceUnavailable (statusCode : Nat)
  | invalidResponse
  | authenticationFailed (message : String)
  | profileMissing
deriving DecidableEq, Repr

/-- `AuthService.AuthenticateWithPESU`: SRN format check, trim, emptiness and
length checks (Go `len` is byte length, modelled by `utf8ByteSize`), then the
network call with the upper-cased username, response checks, and the upsert.
The first component records whether the identity provider was contacted. -/
def AuthenticateWithPESU (net : String → String → NetOutcome) (now : Nat)
    (newID : String) (store : List User) (req : PESUAuthRequest) :
    Bool × Except AuthError (User × List User) :=
  if !ValidateSRN req.username then (false, .error .invalidSRNFormat)
  else
    let username := req.username.trim
    let password := req.password.trim
    if username = "" || password = "" then (false, .error .missingCredentials)
    else if username.utf8ByteSize > 20 || password.utf8ByteSize > 128 then
      (false, .error .inputTooLong)
    else
      match net username.toUpper password with
      | .connectError => (true, .error .connectFailure)
      | .response statusCode decoded =>
        if statusCode ≠ 200 then (true, .error (.serviceUnavailable statusCode))
        else
          match decoded with
          | none => (true, .error .invalidResponse)
          | some resp =>
            if !resp.status then (true, .error (.authenticationFailed resp.message))
            else
              match resp.profile with
              | none => (true, .error .profileMissing)
              | some profile => (true, .ok (UpsertUser now newID store profile))

/-- C3: an identity string failing the SRN pattern (matched after
upper-casing) makes authentication return the format error with the network
flag false — the identity provider is never contacted. -/
theorem invalidSRN_noNetworkCall (net : String → String → NetOutcome)
    (now : Nat) (newID : String) (store : List User) (req : PESUAuthRequest)
    (h : ValidateSRN req.username = false) :
    AuthenticateWithPESU net now newID store req =
      (false, .error .invalidSRNFormat) := by
  unfold AuthenticateWithPESU
  rw [h]
  rfl

/-- Witness for C3 at a concrete input: a malformed SRN is rejected without a
network call, for a network oracle that would otherwise answer. -/
theorem invalidSRN_noNetworkCall_witness :
    ValidateSRN "srn123" = false ∧
    AuthenticateWithPESU (fun _ _ => .response 200 none) 0 "nid" []
        ⟨"srn123", "secret"⟩ =
      (false, .error .invalidSRNFormat) :=
  ⟨by decide,
    invalidSRN_noNetworkCall (fun _ _ => .response 200 none) 0 "nid" []
      ⟨"srn123", "secret"⟩ (by decide)⟩

/-! ## Items (ItemService, handlers/item_handler.go, middleware.ParsePagination) -/

/-- A row of the `items` table (models.Item), including the legacy
`image_urls`/`categories` response fields.  Go `float64` price is modelled as
`Rat`. -/
structure Item where
  id : String
  title : String
  description : String
  price : Rat
  location : String
  year : Option Int
  condition : String
  categoryID : Option String
  images : List String
  views : Int
  isAvailable : Bool
  isFeatured : Bool
  sellerID : String
  createdAt : Nat
  updatedAt : Nat
  category : String
  imageURLs : List String
  categories : List String
deriving DecidableEq, Repr

/-- A dynamic update value of the client-supplied `map[string]interface{}`
payload. -/
inductive FieldVal where
  | s (v : String)
  | q (v : Rat)
  | b (v : Bool)
  | t (v : Nat)
  | strs (v : List String)
deriving DecidableEq, Repr

/-- Applying one key/value of a dynamic update payload to an item row
(the remote `Update` semantics for the known columns; unknown keys are
ignored). -/
def setField (it : Item) : String × FieldVal → Item
  | ("title", .s v) => { it with title := v }
  | ("description", .s v) => { it with description := v }
  | ("price", .q v) => { it with price := v }
  | ("location", .s v) => { it with location := v }
  | ("condition", .s v) => { it with condition := v }
  | ("category", .s v) => { it with category := v }
  | ("images", .strs v) => { it with images := v }
  | ("is_available", .b v) => { it with isAvailable := v }
  | ("updated_at", .t v) => { it with updatedAt := v }
  | _ => it

/-- The fields `UpdateItem` strips from client payloads. -/
def protectedFields : List String := ["id", "seller_id", "created_at"]

/-- Error values of the item service relevant to update/delete. -/
inductive ItemServiceError where
  | notFound      -- "item not found"            → handler responds 404
  | unauthorized  -- "unauthorized: not the item owner" → handler responds 403
deriving DecidableEq, Repr

/-- `ItemService.UpdateItem`: ownership verification, protected-field
stripping, timestamp stamping, remote update.  The source executes the
`seller_id` query but discards the returned bytes (`_, _, err := ...
Execute()`), never unmarshalling them into the locally declared `items`
slice, which therefore always stays empty; the same happens to
`updatedItems` after the update.  Both dead continuations are embedded as
written. -/
def UpdateItem (now : Nat) (store : List Item) (itemID sellerID : String)
    (updates : List (String × FieldVal)) :
    Except ItemServiceError Item × List Item :=
  let items : List Item := []
  match items with
  | [] => (.error .notFound, store)
  | first :: _ =>
    if first.sellerID ≠ sellerID then (.error .unauthorized, store)
    else
      let updates2 := (updates.filter fun kv => !(protectedFields.contains kv.1)) ++
        [("updated_at", FieldVal.t now)]
      let store2 := store.map fun it =>
        if it.id = itemID then updates2.foldl setField it else it
      let updatedItems : List Item := []
      match updatedItems with
      | [] => (.error .notFound, store2)
      | updated :: _ => (.ok updated, store2)

/-- `ItemService.DeleteItem` (soft delete): an update that only touches the
timestamp, through `UpdateItem`. -/
def DeleteItem (now : Nat) (store : List Item) (itemID sellerID : String) :
    Except ItemServiceError Unit × List Item :=
  let r := UpdateItem now store itemID sellerID [("updated_at", FieldVal.t now)]
  (match r.1 with
   | .ok _ => .ok ()
   | .error e => .error e, r.2)

/-- The status-code selection of `ItemHandler.UpdateItem`: "item not found" →
404, errors containing "unauthorized" → 403, success → 200. -/
def updateItemHTTPStatus : Except ItemServiceError Item → Nat
  | .ok _ => 200
  | .error .notFound => 404
  | .error .unauthorized => 403

/-- C2 (code_bug evidence): because the ownership query's result is discarded,
every update — owner or not — returns the "item not found" error (handler
status 404, never the 403 the claim requires), and the store is never
modified; delete behaves identically. -/
theorem updateItem_notFound_divergence (now : Nat) (store : List Item)
    (itemID sellerID : String) (updates : List (String × FieldVal)) :
    UpdateItem now store itemID sellerID updates =
      (.error .notFound, store) ∧
    updateItemHTTPStatus (UpdateItem now store itemID sellerID updates).1 = 404 ∧
    DeleteItem now store itemID sellerID = (.error .notFound, store) :=
  ⟨rfl, rfl, rfl⟩

/-- `middleware.ParsePagination`'s clamping, on the `strconv.Atoi`-parsed
limit and offset query values (an absent query yields the defaults 12 and 0
through `c.Query`'s default before `Atoi`; a non-numeric query makes `Atoi`
yield 0 with its error discarded). -/
def ParsePagination (limitIn offsetIn : Int) : Int × Int :=
  let limit := if limitIn > 50 then 50 else limitIn
  let limit2 := if limit < 1 then 12 else limit
  let offset := if offsetIn < 0 then 0 else offsetIn
  (limit2, offset)

/-- The sort allow-list of `GetItems`. -/
inductive SortKey where
  | createdAt
  | priceAsc
  | priceDesc
  | titleAsc
deriving DecidableEq, Repr

/-- The ordering applied by the remote for `GetItems`' sort switch.  The
source computes an `ascending` flag but passes nil ordering options in both
branches of `if ascending`, so the remote orders descending on the chosen
column in every case (postgrest's default ordering options). -/
def sortItems : SortKey → List Item → List Item
  | .createdAt, l => l.insertionSort fun a b => b.createdAt ≤ a.createdAt
  | .priceAsc, l => l.insertionSort fun a b => b.price ≤ a.price
  | .priceDesc, l => l.insertionSort fun a b => b.price ≤ a.price
  | .titleAsc, l => l.insertionSort fun a b => b.title ≤ a.title

/-- `ItemService.processItemImages`: for list views, cap each item's image
list at 3 entries, drop legacy large inline base64 images, and mirror the
result into the legacy `image_urls` field. -/
def processItemImages (items : List Item) : List Item :=
  items.map fun it =>
    if it.images.length = 0 then { it with imageURLs := [] }
    else
      let maxImages := min it.images.length 3
      let processed := (it.images.take maxImages).filter fun img =>
        !(img.utf8ByteSize > 500 && ("data:image/".isPrefixOf img))
      { it with images := processed, imageURLs := processed }

/-- `ItemService.GetItems`: filter, order, page with
`Range(offset, offset+limit-1)`, post-process images, then run the count
query with the same filters; a zero count falls back to the page length.
The concrete filters (title substring, category/condition equality, price
range, location substring) all instantiate the abstract row predicate
`filt`, which the count query applies identically, as in the source. -/
def GetItems (store : List Item) (limit offset : Int) (filt : Item → Bool)
    (sort : SortKey) : List Item × Nat :=
  let matching := store.filter filt
  let sorted := sortItems sort matching
  let page := (sorted.drop offset.toNat).take limit.toNat
  let items := (processItemImages page).map fun it => { it with imageURLs := it.images }
  let totalCount := matching.length
  let totalCount2 := if totalCount = 0 then items.length else totalCount
  (items, totalCount2)

/-- The clamp operation as the claim words it: values below `lo` map up to
`lo`, values above `hi` map down to `hi`.  This is the spec-side definition
used for the refinement comparison against `ParsePagination`. -/
def clampSpec (x lo hi : Int) : Int :=
  if x < lo then lo else if x > hi then hi else x

lemma parsePagination_spec (limitIn offsetIn : Int) :
    (ParsePagination limitIn offsetIn).1 =
      (if limitIn > 50 then 50 else if limitIn < 1 then 12 else limitIn) ∧
    1 ≤ (ParsePagination limitIn offsetIn).1 ∧
    (ParsePagination limitIn offsetIn).1 ≤ 50 ∧
    0 ≤ (ParsePagination limitIn offsetIn).2 := by
  simp only [ParsePagination]
  refine ⟨?_, ?_, ?_, ?_⟩ <;> split_ifs <;> omega

lemma sortItems_length (sort : SortKey) (l : List Item) :
    (sortItems sort l).length = l.length := by
  cases sort <;> exact (List.perm_insertionSort _ _).length_eq

lemma processItemImages_length (items : List Item) :
    (processItemImages items).length = items.length :=
  List.length_map _ _

lemma getItems_page_length (store : List Item) (limit offset : Int)
    (filt : Item → Bool) (sort : SortKey) :
    (GetItems store limit offset filt sort).1.length =
      min limit.toNat ((store.filter filt).length - offset.toNat) := by
  unfold GetItems
  simp only [List.length_map, processItemImages_length, List.length_take,
    List.length_drop, sortItems_length]

lemma getItems_total (store : List Item) (limit offset : Int)
    (filt : Item → Bool) (sort : SortKey) :
    (GetItems store limit offset filt sort).2 = (store.filter filt).length := by
  show (if (store.filter filt).length = 0
      then (GetItems store limit offset filt sort).1.length
      else (store.filter filt).length) = (store.filter filt).length
  by_cases h : (store.filter filt).length = 0
  · rw [if_pos h, getItems_page_length]; omega
  · rw [if_neg h]

lemma getItems_counts (store : List Item) (limit offset : Int)
    (filt : Item → Bool) (sort : SortKey) :
    (GetItems store limit offset filt sort).2 = (store.filter filt).length ∧
    (GetItems store limit offset filt sort).1.length =
      min limit.toNat ((store.filter filt).length - offset.toNat) :=
  ⟨getItems_total store limit offset filt sort,
   getItems_page_length store limit offset filt sort⟩

/-- C4 (amended): for every item list query, `min(offset, total) +
returned_count ≤ total` (so `offset + returned_count ≤ total` whenever
`offset ≤ total`), `returned_count` is at most the clamped limit, and the
clamped limit lies in [1, 50] — except that client limits below 1 are mapped
to the default 12, not up to 1. -/
theorem pagination_bounds (store : List Item) (limitIn offsetIn : Int)
    (filt : Item → Bool) (sort : SortKey) :
    min (ParsePagination limitIn offsetIn).2.toNat
        (GetItems store (ParsePagination limitIn offsetIn).1
          (ParsePagination limitIn offsetIn).2 filt sort).2 +
      (GetItems store (ParsePagination limitIn offsetIn).1
        (ParsePagination limitIn offsetIn).2 filt sort).1.length ≤
      (GetItems store (ParsePagination limitIn offsetIn).1
        (ParsePagination limitIn offsetIn).2 filt sort).2 ∧
    (GetItems store (ParsePagination limitIn offsetIn).1
      (ParsePagination limitIn offsetIn).2 filt sort).1.length ≤
      (ParsePagination limitIn offsetIn).1.toNat ∧
    (ParsePagination limitIn offsetIn).1 =
      (if limitIn > 50 then 50 else if limitIn < 1 then 12 else limitIn) ∧
    1 ≤ (ParsePagination limitIn offsetIn).1 ∧
    (ParsePagination limitIn offsetIn).1 ≤ 50 ∧
    0 ≤ (ParsePagination limitIn offsetIn).2 := by
  obtain ⟨hc1, hc2⟩ := getItems_counts store (ParsePagination limitIn offsetIn).1
    (ParsePagination limitIn offsetIn).2 filt sort
  obtain ⟨he, h1, h50, hoff⟩ := parsePagination_spec limitIn offsetIn
  refine ⟨?_, ?_, he, h1, h50, hoff⟩
  · rw [hc1, hc2]; omega
  · rw [hc2]; omega

/-- A minimal item row used for concrete evaluations. -/
def sampleItem (n : Nat) : Item :=
  { id := toString n, title := "t", description := "d", price := 1,
    location := "l", year := none, condition := "Good", categoryID := none,
    images := [], views := 0, isAvailable := true, isFeatured := false,
    sellerID := "s", createdAt := n, updatedAt := n, category := "",
    imageURLs := [], categories := [] }

/-- C4 counterexample: with a client-supplied limit of 0 (below 1) over a
2-row table, the parsed limit becomes the default 12 and the page returns 2
rows, exceeding `clamp(0, 1, 50) = 1` — the claimed bound
`returned_count ≤ clamp(limit, 1, 50)` fails. -/
theorem pagination_clamp_counterexample :
    ¬(((GetItems [sampleItem 0, sampleItem 1] (ParsePagination 0 0).1
          (ParsePagination 0 0).2 (fun _ => true) SortKey.createdAt).1.length : Int) ≤
        clampSpec 0 1 50) := by decide

/-- `strings.TrimSpace`, modelled character-wise over the ASCII whitespace
characters that occur in this backend's inputs. -/
def trimSpace (s : String) : String :=
  String.mk
    (((s.data.dropWhile fun c =>
        c == ' ' || c == '\t' || c == '\n' || c == '\r').reverse.dropWhile fun c =>
        c == ' ' || c == '\t' || c == '\n' || c == '\r').reverse)

/-- `models.CreateItemRequest` with its validator tags:
title `required,min=3,max=100`, description `required,min=10,max=1000`,
price `required,gt=0`, location `required`, condition
`required,oneof=New 'Like New' Good Fair Poor`, seller_id `required`. -/
structure CreateItemRequest where
  title : String
  description : String
  price : Rat
  location : String
  condition : String
  category : String
  images : List String
  sellerID : String
  isAvailable : Option Bool
  views : Option Int
deriving DecidableEq, Repr

/-- The `oneof` choices of the condition tag. -/
def conditionChoices : List String := ["New", "Like New", "Good", "Fair", "Poor"]

/-- The validator run of `ItemHandler.CreateItem` over the request's tags
(go-playground semantics: `required` fails on the zero value, string `min`/
`max` count runes, the first failing tag per field is reported), composed
with the handler's per-tag error message construction. -/
def validateCreateItemRequest (req : CreateItemRequest) : List String :=
  (if req.title = "" then ["Title is required"]
   else if req.title.length < 3 then ["Title must be at least 3 characters long"]
   else if req.title.length > 100 then ["Title must be less than 100 characters"]
   else []) ++
  (if req.description = "" then ["Description is required"]
   else if req.description.length < 10 then
     ["Description must be at least 10 characters long"]
   else if req.description.length > 1000 then
     ["Description must be less than 1000 characters"]
   else []) ++
  (if req.price = 0 then ["Price is required"]
   else if req.price ≤ 0 then ["Price must be greater than 0"]
   else []) ++
  (if req.location = "" then ["Location is required"] else []) ++
  (if req.condition = "" then ["Condition is required"]
   else if !(conditionChoices.contains req.condition) then
     ["Condition must be one of: New Like New Good Fair Poor"]
   else []) ++
  (if req.sellerID = "" then ["SellerID is required"] else [])

/-- `ItemService.CreateItem`: defaults for availability and views, trimmed
title/description, the campus-address default for a blank location, and the
insert.  The source declares `newItems` but never unmarshals the insert
response into it, so the `len(newItems) > 0` branch is dead and the
locally-constructed item is returned. -/
def CreateItem (now : Nat) (newID : String) (store : List Item)
    (req : CreateItemRequest) : Item × List Item :=
  let isAvailable := req.isAvailable.getD true
  let views := req.views.getD 0
  let location :=
    if trimSpace req.location = "" then "PES University, Bangalore"
    else trimSpace req.location
  let item : Item :=
    { id := newID
      title := trimSpace req.title
      description := trimSpace req.description
      price := req.price
      location := location
      year := none
      condition := req.condition
      categoryID := none
      images := req.images
      views := views
      isAvailable := isAvailable
      isFeatured := false
      sellerID := req.sellerID
      createdAt := now
      updatedAt := now
      category := req.category
      imageURLs := []
      categories := [] }
  (item, store ++ [item])

/-- The responses of `ItemHandler.CreateItem`: `badRequest` is 400,
`unauthorized` 401, `forbidden` 403, `created` 201. -/
inductive CreateItemResponse where
  | badRequest (error : String)
  | unauthorized (error : String)
  | forbidden (error : String)
  | created (item : Item)
deriving DecidableEq, Repr

/-- `ItemHandler.CreateItem`: body validation, authentication check,
seller-identity enforcement, then the service call. -/
def CreateItemHandler (now : Nat) (newID : String) (store : List Item)
    (auth : Option String) (req : CreateItemRequest) :
    CreateItemResponse × List Item :=
  match validateCreateItemRequest req with
  | e :: es => (.badRequest (String.intercalate ", " (e :: es)), store)
  | [] =>
    match auth with
    | none => (.unauthorized "Authentication required", store)
    | some userID =>
      if req.sellerID ≠ "" ∧ req.sellerID ≠ userID then
        (.forbidden "You can only create items for yourself", store)
      else
        let r := CreateItem now newID store { req with sellerID := userID }
        (.created r.1, r.2)

/-- The "Desk Lamp" request of the claim's scenario, with the empty location
it posts. -/
def deskLampRequest : CreateItemRequest :=
  { title := "Desk Lamp"
    description := "Barely used desk lamp"
    price := 500
    location := ""
    condition := "Good"
    category := ""
    images := []
    sellerID := "u1"
    isAvailable := none
    views := none }

/-- C7 counterexample: the scenario's request with `location: ""` is rejected
by the handler's validator (`Location` carries the `required` tag) with a 400
"Location is required" — it never reaches the service's location defaulting,
so no 201 with the campus address is produced. -/
theorem createItem_emptyLocation_rejected :
    CreateItemHandler 0 "i1" [] (some "u1") deskLampRequest =
      (.badRequest "Location is required", []) := by decide

/-- C7 (amended): a validation-passing create request whose location trims to
the empty string (i.e. is whitespace-only but not empty, since an empty
location fails the `required` validator) yields 201 and the created item's
location is the fixed campus address "PES University, Bangalore". -/
theorem createItem_whitespaceLocation_defaults (now : Nat) (newID : String)
    (store : List Item) (userID : String) (req : CreateItemRequest)
    (hval : validateCreateItemRequest req = [])
    (hsid : req.sellerID = userID)
    (hloc : trimSpace req.location = "") :
    CreateItemHandler now newID store (some userID) req =
      (.created (CreateItem now newID store { req with sellerID := userID }).1,
        (CreateItem now newID store { req with sellerID := userID }).2) ∧
    (CreateItem now newID store { req with sellerID := userID }).1.location =
      "PES University, Bangalore" := by
  constructor
  · unfold CreateItemHandler
    rw [hval]
    have hcond : ¬(req.sellerID ≠ "" ∧ req.sellerID ≠ userID) := by
      intro hc
      exact hc.2 hsid
    dsimp only
    rw [if_neg hcond]
  · show (if trimSpace req.location = "" then "PES University, Bangalore"
        else trimSpace req.location) = "PES University, Bangalore"
    rw [if_pos hloc]

/-- Witness for C7's amended claim at a concrete input: the Desk Lamp request
with a whitespace-only location is created with the campus-address default. -/
theorem createItem_whitespaceLocation_defaults_witness :
    CreateItemHandler 3 "i1" [] (some "u1")
        { deskLampRequest with location := " " } =
      (.created (CreateItem 3 "i1" []
          { deskLampRequest with location := " ", sellerID := "u1" }).1,
        (CreateItem 3 "i1" []
          { deskLampRequest with location := " ", sellerID := "u1" }).2) ∧
    (CreateItem 3 "i1" []
        { deskLampRequest with location := " ", sellerID := "u1" }).1.location =
      "PES University, Bangalore" :=
  createItem_whitespaceLocation_defaults 3 "i1" [] "u1"
    { deskLampRequest with location := " " } (by decide) (by decide) (by decide)

/-! ## Messages (MessageService, handlers/message_handler.go) -/

/-- A row of the `messages` table (models.Message).  `readAt` models the
`read_at` column (`NULL` is `none`); `itemID` the nullable `item_id`. -/
structure Message where
  id : String
  senderID : String
  receiverID : String
  message : String
  isRead : Bool
  createdAt : Nat
  readAt : Option Nat
  itemID : Option String
deriving DecidableEq, Repr

/-- The per-row effect of `MarkMessagesAsRead`'s filtered update: rows with
`receiver_id = userID`, `sender_id = otherUserID`, `item_id = itemID` and
`read_at IS NULL` get `read_at` set to now; every other row is untouched. -/
def markOne (now : Nat) (userID otherUserID itemID : String) (m : Message) : Message :=
  if m.receiverID = userID ∧ m.senderID = otherUserID ∧
      m.itemID = some itemID ∧ m.readAt = none then
    { m with readAt := some now }
  else m

/-- `MessageService.MarkMessagesAsRead`: the filtered update over the
messages table.  With the remote reachable the source returns a nil error
unconditionally, modelled by the always-`none` second component. -/
def MarkMessagesAsRead (now : Nat) (store : List Message)
    (userID otherUserID itemID : String) : List Message × Option String :=
  (store.map (markOne now userID otherUserID itemID), none)

/-- C8: marking messages as read is idempotent — a message already carrying a
read timestamp is left unchanged by the per-row update, the operation reports
no error, and applying the operation a second time (at any later clock)
returns exactly the state after the first application. -/
theorem markMessagesAsRead_idempotent (now later : Nat) (store : List Message)
    (userID otherUserID itemID : String) :
    (∀ m ∈ store, ∀ t, m.readAt = some t →
      markOne now userID otherUserID itemID m = m) ∧
    (MarkMessagesAsRead now store userID otherUserID itemID).2 = none ∧
    MarkMessagesAsRead later
        (MarkMessagesAsRead now store userID otherUserID itemID).1
        userID otherUserID itemID =
      ((MarkMessagesAsRead now store userID otherUserID itemID).1, none) := by
  refine ⟨?_, rfl, ?_⟩
  · intro m _ t ht
    unfold markOne
    rw [if_neg]
    intro hc
    rw [ht] at hc
    exact Option.noConfusion hc.2.2.2
  · have hmap :
        (store.map (markOne now userID otherUserID itemID)).map
            (markOne later userID otherUserID itemID) =
          store.map (markOne now userID otherUserID itemID) := by
      rw [List.map_map]
      apply List.map_congr_left
      intro m _
      show markOne later userID otherUserID itemID
          (markOne now userID otherUserID itemID m) =
        markOne now userID otherUserID itemID m
      by_cases h : m.receiverID = userID ∧ m.senderID = otherUserID ∧
          m.itemID = some itemID ∧ m.readAt = none
      · unfold markOne
        rw [if_pos h, if_neg]
        intro hc
        exact Option.noConfusion hc.2.2.2
      · unfold markOne
        rw [if_neg h, if_neg h]
    show ((store.map (markOne now userID otherUserID itemID)).map
        (markOne later userID otherUserID itemID), (none : Option String)) = _
    rw [hmap]
    rfl

/-- Witness for C8 at concrete inputs: an already-read message is untouched,
and a second mark pass equals the first on a one-message store. -/
theorem markMessagesAsRead_idempotent_witness :
    markOne 9 "u" "o" "i" ⟨"m1", "o", "u", "hello", true, 1, some 5, some "i"⟩ =
      ⟨"m1", "o", "u", "hello", true, 1, some 5, some "i"⟩ ∧
    MarkMessagesAsRead 8
        (MarkMessagesAsRead 7 [⟨"m2", "o", "u", "hey", false, 1, none, some "i"⟩]
          "u" "o" "i").1 "u" "o" "i" =
      ((MarkMessagesAsRead 7 [⟨"m2", "o", "u", "hey", false, 1, none, some "i"⟩]
          "u" "o" "i").1, none) :=
  ⟨(markMessagesAsRead_idempotent 9 0
      [⟨"m1", "o", "u", "hello", true, 1, some 5, some "i"⟩] "u" "o" "i").1
      ⟨"m1", "o", "u", "hello", true, 1, some 5, some "i"⟩ (by decide) 5 rfl,
    (markMessagesAsRead_idempotent 7 8
      [⟨"m2", "o", "u", "hey", false, 1, none, some "i"⟩] "u" "o" "i").2.2⟩

/-- The `Or("sender_id.eq.userID,receiver_id.eq.userID")` filter of
`GetActiveChats`' query. -/
def involves (userID : String) (m : Message) : Bool :=
  m.senderID == userID || m.receiverID == userID

/-- The counterpart of a message from the user's perspective, as computed by
the grouping loop. -/
def counterpart (userID : String) (m : Message) : String :=
  if m.senderID = userID then m.receiverID else m.senderID

/-- The row order delivered by `Order("created_at", nil)`: nil ordering
options mean postgrest's defaults, which order descending — newest first. -/
def newerFirst (a b : Message) : Prop := b.createdAt ≤ a.createdAt

instance : DecidableRel newerFirst := fun a b =>
  inferInstanceAs (Decidable (b.createdAt ≤ a.createdAt))

instance : IsTotal Message newerFirst :=
  ⟨fun a b => Nat.le_total b.createdAt a.createdAt⟩

instance : IsTrans Message newerFirst :=
  ⟨fun _ _ _ hab hbc => Nat.le_trans hbc hab⟩

/-- The remote query of `GetActiveChats`: every message where the user is
sender or receiver, ordered by `created_at` descending. -/
def queryUserMessages (store : List Message) (userID : String) : List Message :=
  (store.filter (involves userID)).insertionSort newerFirst

/-- models.Chat, as synthesized by `GetActiveChats` (the unread count is the
source's hard-coded 0 and is omitted; the joined user pointers are not
modelled). -/
structure Chat where
  id : String
  user1ID : String
  user2ID : String
  lastMessage : Message
  updatedAt : Nat
deriving DecidableEq, Repr

/-- The chat entry created the first time a counterpart is seen. -/
def chatFor (userID : String) (m : Message) : Chat :=
  { id := userID ++ "-" ++ counterpart userID m
    user1ID := userID
    user2ID := counterpart userID m
    lastMessage := m
    updatedAt := m.createdAt }

/-- The grouping loop of `GetActiveChats`: one pass over the query result,
inserting a chat only when the map key `userID-otherUserID` is new.  For the
fixed `userID` prefix, map-key equality coincides with equality of the
counterpart, which is what the membership test checks.  The source then
copies the Go map to a slice in unspecified order; the model keeps insertion
order (the verified properties are order-insensitive). -/
def buildChats (userID : String) : List Message → List Chat → List Chat
  | [], acc => acc
  | m :: rest, acc =>
    if acc.any fun c => c.user2ID == counterpart userID m then
      buildChats userID rest acc
    else
      buildChats userID rest (acc ++ [chatFor userID m])

/-- `MessageService.GetActiveChats` over the messages table. -/
def GetActiveChats (store : List Message) (userID : String) : List Chat :=
  buildChats userID (queryUserMessages store userID) []

lemma mem_buildChats_of_mem_acc (u : String) :
    ∀ (l : List Message) (acc : List Chat), ∀ c ∈ acc, c ∈ buildChats u l acc := by
  intro l
  induction l with
  | nil => intro acc c hc; exact hc
  | cons m rest ih =>
    intro acc c hc
    unfold buildChats
    by_cases h : (acc.any fun ch => ch.user2ID == counterpart u m) = true
    · rw [if_pos h]; exact ih acc c hc
    · rw [if_neg h]; exact ih _ c (List.mem_append_left _ hc)

lemma mem_buildChats (u : String) :
    ∀ (l : List Message) (acc : List Chat), ∀ c ∈ buildChats u l acc,
      c ∈ acc ∨ ∃ m ∈ l, c = chatFor u m := by
  intro l
  induction l with
  | nil => intro acc c hc; exact Or.inl hc
  | cons m rest ih =>
    intro acc c hc
    unfold buildChats at hc
    by_cases h : (acc.any fun ch => ch.user2ID == counterpart u m) = true
    · rw [if_pos h] at hc
      rcases ih acc c hc with h1 | ⟨m2, hm2, he⟩
      · exact Or.inl h1
      · exact Or.inr ⟨m2, List.mem_cons_of_mem m hm2, he⟩
    · rw [if_neg h] at hc
      rcases ih _ c hc with h1 | ⟨m2, hm2, he⟩
      · rcases List.mem_append.mp h1 with h2 | h2
        · exact Or.inl h2
        · exact Or.inr ⟨m, List.mem_cons_self m rest, List.mem_singleton.mp h2⟩
      · exact Or.inr ⟨m2, List.mem_cons_of_mem m hm2, he⟩

lemma buildChats_covered (u : String) :
    ∀ (l : List Message) (acc : List Chat) (k : String),
      (∃ c0 ∈ acc, c0.user2ID = k) →
      ∀ c ∈ buildChats u l acc, c.user2ID = k → c ∈ acc := by
  intro l
  induction l with
  | nil => intro acc k _ c hc _; exact hc
  | cons m rest ih =>
    intro acc k hcov c hc hk
    unfold buildChats at hc
    by_cases h : (acc.any fun ch => ch.user2ID == counterpart u m) = true
    · rw [if_pos h] at hc
      exact ih acc k hcov c hc hk
    · rw [if_neg h] at hc
      have hkm : k ≠ counterpart u m := by
        intro he
        obtain ⟨c0, hc0, hc0k⟩ := hcov
        refine h (List.any_eq_true.mpr ⟨c0, hc0, ?_⟩)
        rw [beq_iff_eq, hc0k, he]
      have hcov2 : ∃ c0 ∈ acc ++ [chatFor u m], c0.user2ID = k := by
        obtain ⟨c0, hc0, hc0k⟩ := hcov
        exact ⟨c0, List.mem_append_left _ hc0, hc0k⟩
      rcases List.mem_append.mp (ih _ k hcov2 c hc hk) with h2 | h2
      · exact h2
      · exfalso
        have he : c = chatFor u m := List.mem_singleton.mp h2
        rw [he] at hk
        exact hkm hk.symm

lemma buildChats_coverage (u : String) :
    ∀ (l : List Message) (acc : List Chat), ∀ m ∈ l,
      ∃ c ∈ buildChats u l acc, c.user2ID = counterpart u m := by
  intro l
  induction l with
  | nil => intro acc m hm; exact absurd hm (List.not_mem_nil m)
  | cons m0 rest ih =>
    intro acc m hm
    unfold buildChats
    by_cases h : (acc.any fun ch => ch.user2ID == counterpart u m0) = true
    · rw [if_pos h]
      rcases List.mem_cons.mp hm with he | hm2
      · obtain ⟨c0, hc0, hc0k⟩ := List.any_eq_true.mp h
        exact ⟨c0, mem_buildChats_of_mem_acc u rest acc c0 hc0,
          by rw [he]; exact beq_iff_eq.mp hc0k⟩
      · exact ih acc m hm2
    · rw [if_neg h]
      rcases List.mem_cons.mp hm with he | hm2
      · refine ⟨chatFor u m0, mem_buildChats_of_mem_acc u rest _ _
          (List.mem_append_right _ (List.mem_singleton.mpr rfl)), ?_⟩
        rw [he]
        rfl
      · exact ih _ m hm2

lemma buildChats_max (u : String) :
    ∀ (l : List Message), l.Sorted newerFirst → ∀ (acc : List Chat),
      ∀ c ∈ buildChats u l acc, c ∈ acc ∨
        (c.lastMessage ∈ l ∧ counterpart u c.lastMessage = c.user2ID ∧
          ∀ m ∈ l, counterpart u m = c.user2ID →
            m.createdAt ≤ c.lastMessage.createdAt) := by
  intro l
  induction l with
  | nil => intro _ acc c hc; exact Or.inl hc
  | cons m0 rest ih =>
    intro hs acc c hc
    have hm0 := (List.sorted_cons.mp hs).1
    have hs2 := (List.sorted_cons.mp hs).2
    unfold buildChats at hc
    by_cases h : (acc.any fun ch => ch.user2ID == counterpart u m0) = true
    · rw [if_pos h] at hc
      by_cases hk : counterpart u m0 = c.user2ID
      · left
        obtain ⟨c0, hc0, hc0k⟩ := List.any_eq_true.mp h
        exact buildChats_covered u rest acc (counterpart u m0)
          ⟨c0, hc0, beq_iff_eq.mp hc0k⟩ c hc hk.symm
      · rcases ih hs2 acc c hc with hl | ⟨hmem, hcp, hmax⟩
        · exact Or.inl hl
        · right
          refine ⟨List.mem_cons_of_mem m0 hmem, hcp, ?_⟩
          intro m hm hkm
          rcases List.mem_cons.mp hm with he | hm2
          · exact absurd (he ▸ hkm) hk
          · exact hmax m hm2 hkm
    · rw [if_neg h] at hc
      by_cases hk : counterpart u m0 = c.user2ID
      · have hcov2 : ∃ c0 ∈ acc ++ [chatFor u m0], c0.user2ID = counterpart u m0 :=
          ⟨chatFor u m0, List.mem_append_right _ (List.mem_singleton.mpr rfl), rfl⟩
        rcases List.mem_append.mp
            (buildChats_covered u rest _ (counterpart u m0) hcov2 c hc hk.symm) with
          h2 | h2
        · exact Or.inl h2
        · have he : c = chatFor u m0 := List.mem_singleton.mp h2
          subst he
          right
          refine ⟨List.mem_cons_self m0 rest, rfl, ?_⟩
          intro m hm _
          rcases List.mem_cons.mp hm with he2 | hm2
          · subst he2; exact Nat.le_refl _
          · exact hm0 m hm2
      · rcases ih hs2 _ c hc with hl | ⟨hmem, hcp, hmax⟩
        · rcases List.mem_append.mp hl with h2 | h2
          · exact Or.inl h2
          · exfalso
            have he : c = chatFor u m0 := List.mem_singleton.mp h2
            apply hk
            rw [he]
            rfl
        · right
          refine ⟨List.mem_cons_of_mem m0 hmem, hcp, ?_⟩
          intro m hm hkm
          rcases List.mem_cons.mp hm with he2 | hm2
          · exact absurd (he2 ▸ hkm) hk
          · exact hmax m hm2 hkm

lemma buildChats_nodupKeys (u : String) :
    ∀ (l : List Message) (acc : List Chat),
      acc.Pairwise (fun a b => a.user2ID ≠ b.user2ID) →
      (buildChats u l acc).Pairwise (fun a b => a.user2ID ≠ b.user2ID) := by
  intro l
  induction l with
  | nil => intro acc h; exact h
  | cons m0 rest ih =>
    intro acc h
    unfold buildChats
    by_cases hb : (acc.any fun ch => ch.user2ID == counterpart u m0) = true
    · rw [if_pos hb]; exact ih acc h
    · rw [if_neg hb]
      apply ih
      rw [List.pairwise_append]
      refine ⟨h, List.pairwise_singleton _ _, ?_⟩
      intro a ha b hb2
      have hbc : b = chatFor u m0 := List.mem_singleton.mp hb2
      subst hbc
      intro he
      refine hb (List.any_eq_true.mpr ⟨a, ha, ?_⟩)
      rw [beq_iff_eq]
      exact he

/-- C9: the active-chats operation yields exactly one chat per counterpart
occurring in the user's messages (as sender or receiver): every chat is built
from one of the user's messages with the matching counterpart, every
counterpart of a user message has a chat, a chat's last_message has maximal
created_at among the messages with that counterpart, and chats carry pairwise
distinct counterparts. -/
theorem getActiveChats_groupsByCounterpart (store : List Message) (userID : String) :
    (∀ c ∈ GetActiveChats store userID,
      ∃ m ∈ store.filter (involves userID), c = chatFor userID m) ∧
    (∀ m ∈ store.filter (involves userID),
      ∃ c ∈ GetActiveChats store userID, c.user2ID = counterpart userID m) ∧
    (∀ c ∈ GetActiveChats store userID, ∀ m ∈ store.filter (involves userID),
      counterpart userID m = c.user2ID → m.createdAt ≤ c.lastMessage.createdAt) ∧
    (GetActiveChats store userID).Pairwise fun a b => a.user2ID ≠ b.user2ID := by
  have hperm := List.perm_insertionSort newerFirst (store.filter (involves userID))
  have hsorted : (queryUserMessages store userID).Sorted newerFirst :=
    List.sorted_insertionSort newerFirst _
  refine ⟨?_, ?_, ?_, ?_⟩
  · intro c hc
    rcases mem_buildChats userID _ [] c hc with h | ⟨m, hm, he⟩
    · exact absurd h (List.not_mem_nil c)
    · exact ⟨m, hperm.mem_iff.mp hm, he⟩
  · intro m hm
    exact buildChats_coverage userID _ [] m (hperm.mem_iff.mpr hm)
  · intro c hc m hm hk
    rcases buildChats_max userID _ hsorted [] c hc with h | ⟨_, _, hmax⟩
    · exact absurd h (List.not_mem_nil c)
    · exact hmax m (hperm.mem_iff.mpr hm) hk
  · exact buildChats_nodupKeys userID _ [] List.Pairwise.nil

/-- Witness for C9 at a concrete store: two messages with the same
counterpart, the newer one (created_at 5) becoming the chat's last message. -/
theorem getActiveChats_groupsByCounterpart_witness :
    (∃ c ∈ GetActiveChats
        [⟨"m1", "u", "o", "hi", false, 2, none, none⟩,
         ⟨"m2", "o", "u", "yo", false, 5, none, none⟩] "u",
      c.user2ID = counterpart "u" ⟨"m1", "u", "o", "hi", false, 2, none, none⟩) ∧
    (∀ c ∈ GetActiveChats
        [⟨"m1", "u", "o", "hi", false, 2, none, none⟩,
         ⟨"m2", "o", "u", "yo", false, 5, none, none⟩] "u",
      ∀ m ∈ ([⟨"m1", "u", "o", "hi", false, 2, none, none⟩,
              ⟨"m2", "o", "u", "yo", false, 5, none, none⟩] :
          List Message).filter (involves "u"),
        counterpart "u" m = c.user2ID → m.createdAt ≤ c.lastMessage.createdAt) :=
  ⟨(getActiveChats_groupsByCounterpart
      [⟨"m1", "u", "o", "hi", false, 2, none, none⟩,
       ⟨"m2", "o", "u", "yo", false, 5, none, none⟩] "u").2.1
      ⟨"m1", "u", "o", "hi", false, 2, none, none⟩ (by decide),
    (getActiveChats_groupsByCounterpart
      [⟨"m1", "u", "o", "hi", false, 2, none, none⟩,
       ⟨"m2", "o", "u", "yo", false, 5, none, none⟩] "u").2.2.1⟩

/-- models.SendMessageRequest: `receiver_id` and `message` carry the
validator tags `required` and `required,min=1,max=1000`; `item_id` is
optional and unvalidated. -/
structure SendMessageRequest where
  receiverID : String
  message : String
  itemID : String
deriving DecidableEq, Repr

/-- The validator run of `MessageHandler.SendMessage` (go-playground
semantics; the error text abbreviates the library's
"Key: ... Error:Field validation for ..." format). -/
def validateSendMessage (req : SendMessageRequest) : Option String :=
  if req.receiverID = "" then
    some "Field validation for ReceiverID failed on the required tag"
  else if req.message = "" then
    some "Field validation for Message failed on the required tag"
  else if req.message.length > 1000 then
    some "Field validation for Message failed on the max tag"
  else none

/-- Responses of `MessageHandler.SendMessage`: `badRequest` 400,
`unauthorized` 401, `notFound` 404, `serverError` 500, `created` 201. -/
inductive SendMessageResponse where
  | badRequest (error : String)
  | unauthorized (error : String)
  | notFound (error : String)
  | serverError (error : String)
  | created (m : Message)
deriving DecidableEq, Repr

/-- The service-error mapping of the handler: "receiver not found" and "item
not found" → 404 with the message, "item is not active" → 400 with the
message, anything else → 500 "Failed to send message". -/
def sendMessageErrorResponse (e : String) : SendMessageResponse :=
  if e = "receiver not found" ∨ e = "item not found" then .notFound e
  else if e = "item is not active" then .badRequest e
  else .serverError "Failed to send message"

/-- `MessageHandler.SendMessage`: body validation, authentication check, the
self-messaging guard, then the service call (`svc` stands for
`MessageService.SendMessage` against the remote store).  The first component
records whether the service was invoked. -/
def SendMessageHandler (svc : String → SendMessageRequest → Except String Message)
    (auth : Option String) (req : SendMessageRequest) :
    Bool × SendMessageResponse :=
  match validateSendMessage req with
  | some e => (false, .badRequest ("Validation failed: " ++ e))
  | none =>
    match auth with
    | none => (false, .unauthorized "Authentication required")
    | some userID =>
      if userID = req.receiverID then
        (false, .badRequest "Cannot send message to yourself")
      else
        match svc userID req with
        | .error e => (true, sendMessageErrorResponse e)
        | .ok m => (true, .created m)

/-- C10 counterexample: an authenticated request with receiver equal to the
sender but an empty message body gets the validation-failure 400, not the
"Cannot send message to yourself" error the claim asserts for every such
request (the service is still never invoked). -/
theorem sendMessage_selfError_counterexample :
    SendMessageHandler (fun _ _ => .error "x") (some "u1") ⟨"u1", "", ""⟩ ≠
      (false, .badRequest "Cannot send message to yourself") := by decide

/-- C10 (amended): for every authenticated send-message request that passes
body validation and whose receiver_id equals the sender's id, the handler
returns 400 "Cannot send message to yourself" without invoking the message
service; requests failing body validation also return 400 without a service
call, but with the validation error instead. -/
theorem sendMessage_self_rejected
    (svc : String → SendMessageRequest → Except String Message)
    (userID : String) (req : SendMessageRequest)
    (hval : validateSendMessage req = none)
    (hrecv : req.receiverID = userID) :
    SendMessageHandler svc (some userID) req =
      (false, .badRequest "Cannot send message to yourself") := by
  unfold SendMessageHandler
  rw [hval]
  dsimp only
  rw [if_pos hrecv.symm]

/-- Witness for C10's amended claim at a concrete input. -/
theorem sendMessage_self_rejected_witness :
    SendMessageHandler (fun _ _ => .error "receiver not found") (some "u1")
        ⟨"u1", "hi", ""⟩ =
      (false, .badRequest "Cannot send message to yourself") :=
  sendMessage_self_rejected (fun _ _ => .error "receiver not found") "u1"
    ⟨"u1", "hi", ""⟩ (by decide) rfl

end PesXChange
